import Mathlib

/-!  Verification development for
`deeppavlov/models/seq2seq_go_bot/network_with_ner.py`
(class `Seq2SeqGoalOrientedBotWithNerNetwork`).

Modelling conventions.  Tensors are nested lists over `ℚ` (the numeric
value domain; dtype distinctions of the execution engine are dropped).
The pointwise cross-entropy primitives of the numeric library
(`tf.losses.sparse_softmax_cross_entropy` before weighting, and
`tf.nn.softmax_cross_entropy_with_logits_v2` against the one-hot labels
of line 220) are per-position functions of the logit vector and the
integer label at that position; they are modelled by an abstract
parameter `ce : List ℚ → ℕ → ℚ`.  Fallible Python code is modelled with
`Except PyErr`. -/

/-- Python exception kinds raised by (or reachable from) this module. -/
inductive PyErr
  | configError
  | valueError
  | typeError
  | attributeError
  | notImplementedError
deriving DecidableEq

/-- Pointwise zip of three lists, truncating at the shortest
(the shape-aligned elementwise tensor operations used below). -/
def zipWith3 {α β γ δ : Type} (f : α → β → γ → δ) :
    List α → List β → List γ → List δ
  | a :: as, b :: bs, c :: cs => f a b c :: zipWith3 f as bs cs
  | _, _, _ => []

/-- Lines 198-205: `tf.losses.sparse_softmax_cross_entropy` with
`reduction=NONE` and weights `tf.expand_dims(self._tgt_mask, -1)` (the
trailing singleton axis is squeezed back inside the loss helper): the
result at position `(b, t)` is the per-token cross-entropy multiplied by
the mask weight at `(b, t)`.  Here for one example row: `lrow` are the
logit vectors over output time, `yrow` the target ids
(`self._decoder_outputs`), `wrow` the mask row. -/
def decMaskedRow (ce : List ℚ → ℕ → ℚ) (lrow : List (List ℚ)) (yrow : List ℕ)
    (wrow : List ℚ) : List ℚ :=
  zipWith3 (fun l y w => ce l y * w) lrow yrow wrow

/-- Line 207: per-example decoder loss, summed over time and divided by
that example's mask sum (`tf.reduce_sum(_loss_tensor, -1) /
tf.reduce_sum(weights, -1)`). -/
def decRowLoss (ce : List ℚ → ℕ → ℚ) (lrow : List (List ℚ)) (yrow : List ℕ)
    (wrow : List ℚ) : ℚ :=
  (decMaskedRow ce lrow yrow wrow).sum / wrow.sum

/-- Line 210: decoder loss before the optional L2 terms — row losses summed
over the batch and divided by the batch size (`self._batch_size`, the
leading dimension of the fed encoder inputs, passed here as `batchSize`). -/
def decLossCore (ce : List ℚ → ℕ → ℚ) (logits : List (List (List ℚ)))
    (labels : List (List ℕ)) (mask : List (List ℚ)) (batchSize : ℕ) : ℚ :=
  (zipWith3 (decRowLoss ce) logits labels mask).sum / (batchSize : ℚ)

/-- Lines 212-215: `_build_dec_loss` return value — the normalized loss plus
`l2_reg * tf.reduce_sum(reg_vars)` when `l2_reg > 0`; `regVars` models the
per-scope `tf.losses.get_regularization_loss` values (external state of the
graph's regularizer collection). -/
def decLossFull (ce : List ℚ → ℕ → ℚ) (logits : List (List (List ℚ)))
    (labels : List (List ℕ)) (mask : List (List ℚ)) (batchSize : ℕ)
    (l2reg : ℚ) (regVars : List ℚ) : ℚ :=
  decLossCore ce logits labels mask batchSize +
    (if 0 < l2reg then l2reg * regVars.sum else 0)

/-- The decoder-loss formula in the words of the specification (claim C2):
per-example token-level cross-entropy weighted by the output mask, summed
over time, divided by that example's mask sum, then summed over examples
and divided by the batch size.  Stated from the spec, for comparison with
`decLossCore` (which is stated from the source). -/
def decLossSpec (ce : List ℚ → ℕ → ℚ) (logits : List (List (List ℚ)))
    (labels : List (List ℕ)) (mask : List (List ℚ)) (batchSize : ℕ) : ℚ :=
  (zipWith3 (fun lrow yrow wrow =>
      (zipWith3 (fun l y w => w * ce l y) lrow yrow wrow).sum / wrow.sum)
    logits labels mask).sum / (batchSize : ℚ)

/-- Lines 220-230 of `_build_ner_loss_predict`: per-position softmax
cross-entropy of the logits against `tf.one_hot(self._src_tags, n_tags)`
(the pointwise `ce`), multiplied elementwise by the tag mask (line 225),
summed over input time and divided by the row's mask sum (line 230). -/
def nerRowLoss (ce : List ℚ → ℕ → ℚ) (lrow : List (List ℚ)) (trow : List ℕ)
    (wrow : List ℚ) : ℚ :=
  (zipWith3 (fun l tg w => ce l tg * w) lrow trow wrow).sum / wrow.sum

/-- Line 233: NER loss before the optional L2 terms — row losses summed over
the batch and divided by the batch size. -/
def nerLossCore (ce : List ℚ → ℕ → ℚ) (logits : List (List (List ℚ)))
    (tags : List (List ℕ)) (mask : List (List ℚ)) (batchSize : ℕ) : ℚ :=
  (zipWith3 (nerRowLoss ce) logits tags mask).sum / (batchSize : ℚ)

/-- Lines 235-238: `_build_ner_loss_predict` loss output with the optional
L2 term. -/
def nerLossFull (ce : List ℚ → ℕ → ℚ) (logits : List (List (List ℚ)))
    (tags : List (List ℕ)) (mask : List (List ℚ)) (batchSize : ℕ)
    (l2reg : ℚ) (regVars : List ℚ) : ℚ :=
  nerLossCore ce logits tags mask batchSize +
    (if 0 < l2reg then l2reg * regVars.sum else 0)

/-- The loss-related nodes created by `_build_graph` (lines 175-189). -/
structure LossGraph where
  decLoss : ℚ
  nerLoss : ℚ
  loss : ℚ
  /-- the scalar handed to `self.get_train_op(self._loss, ...)` on line 189:
  the objective the single shared optimizer step minimizes -/
  trainObjective : ℚ

/-- `_build_graph`, lines 175-189: the decoder loss is built from the decoder
logits, `self._tgt_mask` and `self.l2_regs[0]`; the NER loss from the NER
logits, `self._src_tag_mask` and `self.l2_regs[1]`; line 187 combines them as
`(1 - self.ner_beta) * self._dec_loss + self.ner_beta * self._ner_loss`, and
line 189 makes that combined scalar the optimizer's objective. -/
def buildLossGraph (beta : ℚ) (ceDec ceNer : List ℚ → ℕ → ℚ)
    (decLogits : List (List (List ℚ))) (decLabels : List (List ℕ))
    (tgtMask : List (List ℚ))
    (nerLogits : List (List (List ℚ))) (srcTags : List (List ℕ))
    (srcTagMask : List (List ℚ))
    (batchSize : ℕ) (l2dec l2ner : ℚ) (regDec regNer : List ℚ) : LossGraph :=
  let d := decLossFull ceDec decLogits decLabels tgtMask batchSize l2dec regDec
  let n := nerLossFull ceNer nerLogits srcTags srcTagMask batchSize l2ner regNer
  let l := (1 - beta) * d + beta * n
  { decLoss := d, nerLoss := n, loss := l, trainObjective := l }

/-- `tags.set`-style pointwise update of one tag id: replaces the entry at
row `b`, column `t` of the 2-D tag tensor with `v` (out-of-range indices
leave the tensor unchanged, as `List.set` does). -/
def setTag (tags : List (List ℕ)) (b t v : ℕ) : List (List ℕ) :=
  tags.set b ((tags.getD b []).set t v)

/-- Per-call inputs of `__call__` (lines 472-487): encoder inputs, source
sequence lengths, tag mask and KB mask, fed to the inference graph. -/
structure InferFeed where
  encInputs : List (List (List ℚ))
  srcSeqLens : List (List ℚ)
  srcTagMask : List (List ℚ)
  kbMask : List (List ℚ)

/-- `__call__`, lines 472-487: the session computes the decoder predictions
and NER predictions (`sess` models the graph evaluation `self.sess.run`);
afterwards, if `prob` is set the call raises NotImplementedError
("Probs not available for now."), otherwise it returns both prediction
tensors. -/
def callNetwork (sess : InferFeed → List (List ℤ) × List (List ℤ))
    (f : InferFeed) (prob : Bool) :
    Except PyErr (List (List ℤ) × List (List ℤ)) :=
  let preds := sess f
  if prob then Except.error PyErr.notImplementedError else Except.ok preds

/-- The variables created by `_add_placeholders` (lines 258-277), plus the
remaining trainable weights of the graph abstracted into one bucket:
`decoder_embedding` is created with `trainable=False` (line 265),
`kb_embedding` with `trainable=True` (line 277). -/
structure TFVars where
  decoderEmbedding : List (List ℚ)
  kbEmbedding : List (List ℚ)
  otherTrainable : List ℚ

/-- Variable creation in `_add_placeholders`: `decoder_embedding` is filled
from the constructor's decoder-embedding table; `kb_embedding` from
`np.array(self.kb_embedding)[:, :self.embedding_size]` (line 272). -/
def addPlaceholdersVars (decTable kbTable : List (List ℚ)) (embSize : ℕ) :
    TFVars :=
  { decoderEmbedding := decTable,
    kbEmbedding := kbTable.map (fun r => r.take embSize),
    otherTrainable := [] }

/-- One optimizer step of `train_on_batch` (lines 489-506): the train op
produced by `get_train_op` minimizes the loss over `tf.trainable_variables()`
only, so a step applies some update to each variable created with
`trainable=True` (`kb_embedding` and the other learned weights) and leaves
every `trainable=False` variable (`decoder_embedding`) untouched. -/
def trainStep (updKb : List (List ℚ) → List (List ℚ))
    (updOther : List ℚ → List ℚ) (s : TFVars) : TFVars :=
  { decoderEmbedding := s.decoderEmbedding,
    kbEmbedding := updKb s.kbEmbedding,
    otherTrainable := updOther s.otherTrainable }

/-- A sequence of `train_on_batch` calls: each call performs one optimizer
step (the batch contents determine the gradients, i.e. the update
functions). -/
def runTraining
    (steps : List ((List (List ℚ) → List (List ℚ)) × (List ℚ → List ℚ)))
    (s : TFVars) : TFVars :=
  steps.foldl (fun st u => trainStep u.1 u.2 st) s

/-- Lines 88-95: `self.kb_embedding.shape[1]` of the rectangular 2-D numpy
array — the common length of the rows. -/
def kbWidth (kb : List (List ℚ)) : ℕ := (kb.headD []).length

/-- Lines 90-95: `self.kb_size` is the number of KB rows when the embedding
width is positive, and `0` otherwise. -/
def kbSizeOf (kb : List (List ℚ)) : ℕ :=
  if 0 < kbWidth kb then kb.length else 0

/-- `self.decoder_embedding.shape[1]`. -/
def decWidth (dec : List (List ℚ)) : ℕ := (dec.headD []).length

/-- Constructor prefix, `__init__` lines 88-101: this code runs before
`super().__init__(**kwargs)` (line 102), before `_build_graph` (line 128)
and before any session exists; when `self.kb_size > 0` and the KB embedding
width differs from the decoder embedding width it raises
`ValueError("decoder embeddings should have the same dimension as knowledge
base entries' embeddings")`. -/
def constructValidate (kb dec : List (List ℚ)) : Except PyErr Unit :=
  if 0 < kbSizeOf kb then
    if kbWidth kb ≠ decWidth dec then Except.error PyErr.valueError
    else Except.ok ()
  else Except.ok ()

/-- Line 417: `tf.reduce_max` over the fed source sequence lengths (whole
numbers, so the surrounding `tf.round` of `max * 2` is exact). -/
def reduceMax (xs : List ℕ) : ℕ := xs.foldr max 0

/-- Line 417: `_max_iters = tf.round(tf.reduce_max(self._src_sequence_lengths)
* 2)`. -/
def maxIters (lens : List ℕ) : ℕ := reduceMax lens * 2

/-- Lines 432-450: the `dynamic_decode` loop over the beam-search decoder,
abstracted to the emitted-token trace of the returned beam: `next` is the
network's choice of next token given the tokens emitted so far, decoding
stops as soon as the end-of-sequence token `eos` is emitted, and
`maximum_iterations` (the first argument) caps the number of loop
iterations regardless of the emitted tokens. -/
def dynamicDecode (next : List ℕ → ℕ) (eos : ℕ) : ℕ → List ℕ → List ℕ
  | 0, _ => []
  | fuel + 1, hist =>
    let t := next hist
    if t = eos then [t] else t :: dynamicDecode next eos fuel (hist ++ [t])

/-- The inference branch of `_build_decoder` (lines 411-451): beam-search
decoding run with `maximum_iterations=_max_iters` computed from the fed
source sequence lengths. -/
def inferPredictions (next : List ℕ → ℕ) (eos : ℕ) (lens : List ℕ) : List ℕ :=
  dynamicDecode next eos (maxIters lens) []

/-- Kinds of attribute found in the `tf.train` module namespace (the external
library reflected over by `_init_params`). -/
inductive TFTrainAttr
  /-- a `tf.train.Optimizer` subclass, e.g. `AdamOptimizer` -/
  | optimizerKind
  /-- a type in `tf.train` that is not an `Optimizer` subclass, e.g. `Saver` -/
  | nonOptimizerKind
  /-- an attribute that is not a type at all, e.g. `latest_checkpoint` -/
  | nonTypeAttr
deriving DecidableEq

/-- `hasattr(tf.train, name)` over a modelled module namespace `env`. -/
def tfHasattr (env : List (String × TFTrainAttr)) (name : String) : Bool :=
  (env.lookup name).isSome

/-- `issubclass(x, tf.train.Optimizer)`: Python raises
`TypeError("issubclass() arg 1 must be a class")` unless `x` is a type — in
particular `issubclass(None, ...)` raises TypeError. -/
def pyIsSubOfOptimizer : Option TFTrainAttr → Except PyErr Bool
  | none => Except.error PyErr.typeError
  | some TFTrainAttr.nonTypeAttr => Except.error PyErr.typeError
  | some TFTrainAttr.optimizerKind => Except.ok true
  | some TFTrainAttr.nonOptimizerKind => Except.ok false

/-- `_init_params`, lines 161-166: `self._optimizer = None`; if
`hasattr(tf.train, name)` then `self._optimizer = getattr(tf.train, name)`;
then `if not issubclass(self._optimizer, tf.train.Optimizer): raise
ConfigError(...)`.  Returns the resolved attribute on success. -/
def resolveOptimizer (env : List (String × TFTrainAttr)) (name : String) :
    Except PyErr (Option TFTrainAttr) :=
  let opt : Option TFTrainAttr :=
    if tfHasattr env name then env.lookup name else none
  match pyIsSubOfOptimizer opt with
  | Except.error e => Except.error e
  | Except.ok true => Except.ok opt
  | Except.ok false => Except.error PyErr.configError

/-- A representative model of the `tf.train` namespace: two optimizer
subclasses, the `Optimizer` base itself, a non-optimizer type and a plain
function attribute. -/
def tfTrainEnv : List (String × TFTrainAttr) :=
  [("AdamOptimizer", TFTrainAttr.optimizerKind),
   ("GradientDescentOptimizer", TFTrainAttr.optimizerKind),
   ("Optimizer", TFTrainAttr.optimizerKind),
   ("Saver", TFTrainAttr.nonOptimizerKind),
   ("latest_checkpoint", TFTrainAttr.nonTypeAttr)]

/-- Values stored under `self.opt` / the persisted JSON sidecar for the
graph-defining parameters: Python ints, floats, lists of ints, or absent
(`dict.get` default `None`). -/
inductive PVal
  | pint (n : ℤ)
  | pfloat (q : ℚ)
  | plist (l : List ℤ)
  | pnone
deriving DecidableEq

/-- `d.get(k)` on a Python dict modelled as an association list. -/
def pyGet (d : List (String × PVal)) (k : String) : PVal :=
  (d.lookup k).getD PVal.pnone

/-- Whether the first character list is an initial segment of the second. -/
def leadsWith : List Char → List Char → Bool
  | [], _ => true
  | _ :: _, [] => false
  | a :: as, b :: bs => a == b && leadsWith as bs

/-- Whether the first character list occurs contiguously in the second. -/
def containsSeq (n : List Char) : List Char → Bool
  | [] => n.isEmpty
  | c :: cs => leadsWith n (c :: cs) || containsSeq n cs

/-- Python's `p in s` for strings `p`, `s`: the substring test.  Line 519
writes `p in ('kb_embedding_control_sum')` — the parentheses do not make a
tuple, so this is a substring test against that string (which, over the
`GRAPH_PARAMS` names, only the full name itself passes). -/
def pyStrIn (p s : String) : Bool := containsSeq p.toList s.toList

/-- The string operand of the membership test on line 519. -/
def kbSumKey : String := "kb_embedding_control_sum"

/-- Lines 64-67: the `GRAPH_PARAMS` name list, in source order. -/
def GRAPH_PARAMS : List String :=
  ["ner_n_tags", "ner_hidden_size", "hidden_size", "knowledge_base_size",
   "source_vocab_size", "target_vocab_size", "embedding_size",
   "kb_embedding_control_sum", "kb_attention_hidden_sizes"]

/-- The loop body of `load_params` (lines 517-524) over the remaining
parameter names: on the first mismatch `self.opt.get(p) != params.get(p)`,
the guard `p in ('kb_embedding_control_sum') and math.abs(...) < 1e-3` is
evaluated; when the substring test succeeds, evaluating `math.abs` raises
`AttributeError` — the Python `math` module has no attribute `abs` (only
`fabs`) and the callable is looked up before its argument or the comparison
is evaluated — so the tolerance branch never completes; when the substring
test fails, `ConfigError` is raised. -/
def loadParamsGo (opt params : List (String × PVal)) :
    List String → Except PyErr Unit
  | [] => Except.ok ()
  | p :: rest =>
    if pyGet opt p ≠ pyGet params p then
      if pyStrIn p kbSumKey then Except.error PyErr.attributeError
      else Except.error PyErr.configError
    else loadParamsGo opt params rest

/-- `load_params` (lines 512-524): field-by-field comparison of the running
configuration against the persisted one over `GRAPH_PARAMS`. -/
def loadParams (opt params : List (String × PVal)) : Except PyErr Unit :=
  loadParamsGo opt params GRAPH_PARAMS

/-- The `units` argument handed to `tf.layers.dense`: an int in correct
code, but a Python list when the hidden-size list itself is passed. -/
inductive PyUnits
  | nat (n : ℕ)
  | natList (l : List ℕ)
deriving DecidableEq

/-- The keyword-parameter names `tf.layers.dense` accepts (the subset used
by this module). -/
def denseKnownKwargs : List String :=
  ["activation", "kernel_initializer", "kernel_regularizer"]

/-- `tf.layers.dense(units, ...)`: Python first binds the keyword arguments
— an unexpected keyword name raises TypeError — and `Dense.__init__` then
runs `int(units)`, which raises TypeError when `units` is a list.  On
success the created layer's output width is `units`. -/
def tfDense (units : PyUnits) (kwargNames : List String) : Except PyErr ℕ :=
  if kwargNames.all (fun k => denseKnownKwargs.contains k) then
    match units with
    | PyUnits.nat n => Except.ok n
    | PyUnits.natList _ => Except.error PyErr.typeError
  else Except.error PyErr.typeError

/-- Line 144: `self.ner_hidden_size = self.opt['ner_hidden_size'],` — the
trailing comma makes the attribute a one-element tuple containing the
configured list, modelled as the singleton list of lists. -/
def nerHiddenSizeAttr (optNerHiddenSize : List ℕ) : List (List ℕ) :=
  [optNerHiddenSize]

/-- The `for n_hidden in self.ner_hidden_size` loop of `_build_ner_head`
(lines 461-465): one `tf.layers.dense(..., n_hidden, activation=tf.nn.relu,
kernel_initializer=..., kernel_regularizer=...)` call per element of the
iterated value; returns the widths of the layers built. -/
def buildNerHeadHidden : List (List ℕ) → Except PyErr (List ℕ)
  | [] => Except.ok []
  | h :: rest =>
    match tfDense (PyUnits.natList h)
        ["activation", "kernel_initializer", "kernel_regularizer"] with
    | Except.error e => Except.error e
    | Except.ok n =>
      match buildNerHeadHidden rest with
      | Except.error e => Except.error e
      | Except.ok ns => Except.ok (n :: ns)

/-- `_build_ner_head` (lines 457-469): the hidden loop followed by the final
linear layer of width `ner_n_tags` — whose call on line 468 spells the
keyword `kernel_initalizer` (not a parameter of `tf.layers.dense`). -/
def buildNerHead (nerHiddenSize : List (List ℕ)) (nTags : ℕ) :
    Except PyErr (List ℕ) :=
  match buildNerHeadHidden nerHiddenSize with
  | Except.error e => Except.error e
  | Except.ok ws =>
    match tfDense (PyUnits.nat nTags)
        ["kernel_initalizer", "kernel_regularizer"] with
    | Except.error e => Except.error e
    | Except.ok w => Except.ok (ws ++ [w])

/-- The NER head as built from the configured hidden-size list, composing
the `_init_params` attribute assignment with `_build_ner_head`. -/
def buildNerHeadFromOpt (optNerHiddenSize : List ℕ) (nTags : ℕ) :
    Except PyErr (List ℕ) :=
  buildNerHead (nerHiddenSizeAttr optNerHiddenSize) nTags

/-- A KB-embedding checksum value drifted from `1` by `1/2000 < 1e-3`
(written through the `Rat` constructor so that concrete evaluation of the
comparisons below stays kernel-computable). -/
def kbSumTol : ℚ := Rat.mk' 2001 2000 (by decide) (by decide)

/-- A configuration snapshot for `load_params` examples: the nine
graph-defining parameters with representative values. -/
def optEx : List (String × PVal) :=
  [("ner_n_tags", PVal.pint 5), ("ner_hidden_size", PVal.plist [64]),
   ("hidden_size", PVal.pint 128), ("knowledge_base_size", PVal.pint 10),
   ("source_vocab_size", PVal.pint 100), ("target_vocab_size", PVal.pint 90),
   ("embedding_size", PVal.pint 300),
   ("kb_embedding_control_sum", PVal.pfloat 1),
   ("kb_attention_hidden_sizes", PVal.plist [32])]

/-- `optEx` with the KB-embedding checksum drifted by `5e-4 < 1e-3`. -/
def paramsTolEx : List (String × PVal) :=
  [("ner_n_tags", PVal.pint 5), ("ner_hidden_size", PVal.plist [64]),
   ("hidden_size", PVal.pint 128), ("knowledge_base_size", PVal.pint 10),
   ("source_vocab_size", PVal.pint 100), ("target_vocab_size", PVal.pint 90),
   ("embedding_size", PVal.pint 300),
   ("kb_embedding_control_sum", PVal.pfloat kbSumTol),
   ("kb_attention_hidden_sizes", PVal.plist [32])]

/-- `optEx` with a different hidden size (a non-exempt graph parameter). -/
def paramsHiddenEx : List (String × PVal) :=
  [("ner_n_tags", PVal.pint 5), ("ner_hidden_size", PVal.plist [64]),
   ("hidden_size", PVal.pint 256), ("knowledge_base_size", PVal.pint 10),
   ("source_vocab_size", PVal.pint 100), ("target_vocab_size", PVal.pint 90),
   ("embedding_size", PVal.pint 300),
   ("kb_embedding_control_sum", PVal.pfloat 1),
   ("kb_attention_hidden_sizes", PVal.plist [32])]

/-- A concrete pointwise cross-entropy stand-in used by witnesses. -/
def ceW : List ℚ → ℕ → ℚ := fun l t => l.sum + t

/-- Decidable equality of `Except` results, used to evaluate the modelled
Python outcomes on concrete inputs. -/
def exceptDecEq {ε α : Type} [DecidableEq ε] [DecidableEq α] :
    (x y : Except ε α) → Decidable (x = y)
  | Except.error e, Except.error f =>
    if h : e = f then isTrue (congrArg Except.error h)
    else isFalse (fun hh => h (Except.error.inj hh))
  | Except.error _, Except.ok _ => isFalse (fun hh => Except.noConfusion hh)
  | Except.ok _, Except.error _ => isFalse (fun hh => Except.noConfusion hh)
  | Except.ok a, Except.ok b =>
    if h : a = b then isTrue (congrArg Except.ok h)
    else isFalse (fun hh => h (Except.ok.inj hh))

instance {ε α : Type} [DecidableEq ε] [DecidableEq α] :
    DecidableEq (Except ε α) := exceptDecEq

theorem zipWith3_congr {α β γ δ : Type} (f g : α → β → γ → δ)
    (h : ∀ a b c, f a b c = g a b c) :
    ∀ (as : List α) (bs : List β) (cs : List γ),
      zipWith3 f as bs cs = zipWith3 g as bs cs := by
  intro as
  induction as with
  | nil => intro bs cs; rfl
  | cons a as ih =>
    intro bs cs
    cases bs with
    | nil => rfl
    | cons b bs =>
      cases cs with
      | nil => rfl
      | cons c cs =>
        show f a b c :: zipWith3 f as bs cs = g a b c :: zipWith3 g as bs cs
        rw [h, ih]

theorem zipWith3_mul_replicate_one {α β : Type} (g : α → β → ℚ) :
    ∀ (as : List α) (n : ℕ), as.length ≤ n → ∀ (bs : List β),
      zipWith3 (fun a b c => g a b * c) as bs (List.replicate n (1 : ℚ)) =
        List.zipWith g as bs := by
  intro as
  induction as with
  | nil => intro n h bs; cases bs <;> rfl
  | cons a as ih =>
    intro n h bs
    cases bs with
    | nil => rfl
    | cons b bs =>
      cases n with
      | zero => simp at h
      | succ m =>
        show g a b * 1 :: zipWith3 _ as bs (List.replicate m 1) =
          g a b :: List.zipWith g as bs
        rw [mul_one, ih m (by simpa using h) bs]

/-- Claim C1: the combined training objective built by `_build_graph` equals
`(1 - ner_beta) * decoder_loss + ner_beta * ner_loss`, and this combined
scalar is the objective handed to the single shared optimizer step that
`train_on_batch` executes. -/
theorem combined_loss_drives_train_op (beta : ℚ)
    (ceDec ceNer : List ℚ → ℕ → ℚ)
    (decLogits : List (List (List ℚ))) (decLabels : List (List ℕ))
    (tgtMask : List (List ℚ))
    (nerLogits : List (List (List ℚ))) (srcTags : List (List ℕ))
    (srcTagMask : List (List ℚ))
    (batchSize : ℕ) (l2dec l2ner : ℚ) (regDec regNer : List ℚ) :
    (buildLossGraph beta ceDec ceNer decLogits decLabels tgtMask nerLogits
        srcTags srcTagMask batchSize l2dec l2ner regDec regNer).loss =
      (1 - beta) *
          decLossFull ceDec decLogits decLabels tgtMask batchSize l2dec regDec
        + beta *
          nerLossFull ceNer nerLogits srcTags srcTagMask batchSize l2ner regNer
    ∧ (buildLossGraph beta ceDec ceNer decLogits decLabels tgtMask nerLogits
        srcTags srcTagMask batchSize l2dec l2ner regDec regNer).trainObjective =
      (buildLossGraph beta ceDec ceNer decLogits decLabels tgtMask nerLogits
        srcTags srcTagMask batchSize l2dec l2ner regDec regNer).loss :=
  ⟨rfl, rfl⟩

/-- Claim C2: the decoder loss is the mask-weighted token cross-entropy
summed over time, divided per example by the mask sum, summed over the batch
and divided by the batch size (the formula as the spec words it,
`decLossSpec`); and on a single-example batch with no padding it is the
plain sequence-averaged cross-entropy. -/
theorem dec_loss_normalization :
    (∀ (ce : List ℚ → ℕ → ℚ) (logits : List (List (List ℚ)))
        (labels : List (List ℕ)) (mask : List (List ℚ)) (batchSize : ℕ),
      decLossCore ce logits labels mask batchSize =
        decLossSpec ce logits labels mask batchSize)
    ∧ (∀ (ce : List ℚ → ℕ → ℚ) (lrow : List (List ℚ)) (yrow : List ℕ)
        (T : ℕ), lrow.length = T → yrow.length = T → 0 < T →
      decLossCore ce [lrow] [yrow] [List.replicate T (1 : ℚ)] 1 =
        (List.zipWith ce lrow yrow).sum / (T : ℚ)) := by
  constructor
  · intro ce logits labels mask batchSize
    have hrow : ∀ (lrow : List (List ℚ)) (yrow : List ℕ) (wrow : List ℚ),
        decRowLoss ce lrow yrow wrow =
          (zipWith3 (fun l y w => w * ce l y) lrow yrow wrow).sum /
            wrow.sum := by
      intro lrow yrow wrow
      unfold decRowLoss decMaskedRow
      rw [zipWith3_congr (fun l y w => ce l y * w) (fun l y w => w * ce l y)
        (fun a b c => mul_comm (ce a b) c) lrow yrow wrow]
    unfold decLossCore decLossSpec
    rw [zipWith3_congr _ _ hrow logits labels mask]
  · intro ce lrow yrow T hl _hy _hT
    unfold decLossCore
    have h1 : zipWith3 (decRowLoss ce) [lrow] [yrow]
        [List.replicate T (1 : ℚ)] =
        [decRowLoss ce lrow yrow (List.replicate T 1)] := rfl
    rw [h1]
    unfold decRowLoss decMaskedRow
    rw [zipWith3_mul_replicate_one ce lrow T (le_of_eq hl) yrow]
    simp [List.sum_replicate]

/-- Witness for `dec_loss_normalization`: a batch of one example with two
time steps and mask all ones. -/
theorem dec_loss_normalization_witness :
    ([[], []] : List (List ℚ)).length = 2 ∧ ([3, 4] : List ℕ).length = 2 ∧
    0 < 2 ∧
    decLossCore ceW [[[], []]] [[3, 4]] [List.replicate 2 (1 : ℚ)] 1 =
      (List.zipWith ceW [[], []] [3, 4]).sum / ((2 : ℕ) : ℚ) :=
  ⟨rfl, rfl, by decide,
    dec_loss_normalization.2 ceW [[], []] [3, 4] 2 rfl rfl (by decide)⟩

theorem nerRow_sum_set (ce : List ℚ → ℕ → ℚ) :
    ∀ (trow : List ℕ) (t : ℕ) (lrow : List (List ℚ)) (wrow : List ℚ) (v : ℕ),
      wrow.getD t 1 = 0 →
      (zipWith3 (fun l tg w => ce l tg * w) lrow (trow.set t v) wrow).sum =
        (zipWith3 (fun l tg w => ce l tg * w) lrow trow wrow).sum := by
  intro trow
  induction trow with
  | nil => intro t lrow wrow v _h; rw [List.set_nil]
  | cons a as ih =>
    intro t lrow wrow v h
    cases t with
    | zero =>
      rw [List.set_cons_zero]
      cases lrow with
      | nil => rfl
      | cons l ls =>
        cases wrow with
        | nil => rfl
        | cons w ws =>
          have hw : w = 0 := by simpa using h
          simp only [zipWith3, List.sum_cons]
          rw [hw, mul_zero, mul_zero]
    | succ s =>
      rw [List.set_cons_succ]
      cases lrow with
      | nil => rfl
      | cons l ls =>
        cases wrow with
        | nil => rfl
        | cons w ws =>
          have h' : ws.getD s 1 = 0 := by simpa using h
          simp only [zipWith3, List.sum_cons]
          rw [ih s ls ws v h']

theorem nerRowLoss_set (ce : List ℚ → ℕ → ℚ) (lrow : List (List ℚ))
    (trow : List ℕ) (wrow : List ℚ) (t v : ℕ) (h : wrow.getD t 1 = 0) :
    nerRowLoss ce lrow (trow.set t v) wrow = nerRowLoss ce lrow trow wrow := by
  unfold nerRowLoss
  rw [nerRow_sum_set ce trow t lrow wrow v h]

theorem nerLoss_rows_set (ce : List ℚ → ℕ → ℚ) :
    ∀ (tags : List (List ℕ)) (b : ℕ) (logits : List (List (List ℚ)))
      (mask : List (List ℚ)) (t v : ℕ),
      (mask.getD b []).getD t 1 = 0 →
      (zipWith3 (nerRowLoss ce) logits (setTag tags b t v) mask).sum =
        (zipWith3 (nerRowLoss ce) logits tags mask).sum := by
  intro tags
  induction tags with
  | nil =>
    intro b logits mask t v _h
    have hst : setTag [] b t v = [] := by simp [setTag]
    rw [hst]
  | cons r rs ih =>
    intro b logits mask t v h
    cases b with
    | zero =>
      have hst : setTag (r :: rs) 0 t v = (r.set t v) :: rs := by
        simp [setTag]
      rw [hst]
      cases logits with
      | nil => rfl
      | cons L Ls =>
        cases mask with
        | nil => rfl
        | cons w ws =>
          have hw : w.getD t 1 = 0 := by simpa using h
          simp only [zipWith3, List.sum_cons]
          rw [nerRowLoss_set ce L r w t v hw]
    | succ b' =>
      have hst : setTag (r :: rs) (b' + 1) t v = r :: setTag rs b' t v := by
        simp [setTag]
      rw [hst]
      cases logits with
      | nil => rfl
      | cons L Ls =>
        cases mask with
        | nil => rfl
        | cons w ws =>
          have h' : (ws.getD b' []).getD t 1 = 0 := by simpa using h
          simp only [zipWith3, List.sum_cons]
          rw [ih b' Ls ws t v h']

/-- Claim C3: masked NER positions do not influence the reported NER loss:
if the tag mask is zero at row `b`, position `t`, then replacing the tag id
there (all other inputs fixed) leaves the NER loss — including its optional
L2 term — unchanged. -/
theorem ner_mask_noninterference (ce : List ℚ → ℕ → ℚ)
    (logits : List (List (List ℚ))) (tags : List (List ℕ))
    (mask : List (List ℚ)) (batchSize b t v : ℕ) (l2reg : ℚ)
    (regVars : List ℚ) (h : (mask.getD b []).getD t 1 = 0) :
    nerLossFull ce logits (setTag tags b t v) mask batchSize l2reg regVars =
      nerLossFull ce logits tags mask batchSize l2reg regVars := by
  unfold nerLossFull nerLossCore
  rw [nerLoss_rows_set ce tags b logits mask t v h]

/-- Witness for `ner_mask_noninterference`: one example, two input positions,
the second position masked out, its tag changed from 1 to 5. -/
theorem ner_mask_noninterference_witness :
    ((([[(1 : ℚ), 0]] : List (List ℚ)).getD 0 []).getD 1 1 = 0) ∧
    nerLossFull ceW [[[(1 : ℚ)], [(2 : ℚ)]]] (setTag [[0, 1]] 0 1 5)
        [[(1 : ℚ), 0]] 1 0 [] =
      nerLossFull ceW [[[(1 : ℚ)], [(2 : ℚ)]]] [[0, 1]] [[(1 : ℚ), 0]] 1 0 [] :=
  ⟨by decide,
    ner_mask_noninterference ceW [[[(1 : ℚ)], [(2 : ℚ)]]] [[0, 1]]
      [[(1 : ℚ), 0]] 1 0 1 5 0 [] (by decide)⟩

theorem dynamicDecode_length_le (next : List ℕ → ℕ) (eos : ℕ) :
    ∀ (fuel : ℕ) (hist : List ℕ),
      (dynamicDecode next eos fuel hist).length ≤ fuel := by
  intro fuel
  induction fuel with
  | zero => intro hist; simp [dynamicDecode]
  | succ m ih =>
    intro hist
    by_cases h : next hist = eos
    · simp [dynamicDecode, h]
    · have := ih (hist ++ [next hist])
      simp only [dynamicDecode, if_neg h, List.length_cons]
      omega

theorem dynamicDecode_stops_at_eos (next : List ℕ → ℕ) (eos : ℕ) :
    ∀ (fuel : ℕ) (hist : List ℕ) (i : ℕ),
      (dynamicDecode next eos fuel hist).get? i = some eos →
      i = (dynamicDecode next eos fuel hist).length - 1 := by
  intro fuel
  induction fuel with
  | zero => intro hist i h; simp [dynamicDecode] at h
  | succ m ih =>
    intro hist i h
    by_cases he : next hist = eos
    · simp only [dynamicDecode, if_pos he] at h ⊢
      cases i with
      | zero => rfl
      | succ j => simp at h
    · simp only [dynamicDecode, if_neg he] at h ⊢
      cases i with
      | zero =>
        simp at h
        exact absurd h he
      | succ j =>
        simp only [List.get?_cons_succ] at h
        have hj := ih (hist ++ [next hist]) j h
        have hlt : j < (dynamicDecode next eos m (hist ++ [next hist])).length := by
          by_contra hge
          rw [List.get?_eq_none.mpr (by omega)] at h
          exact Option.noConfusion h
        simp only [List.length_cons]
        omega

/-- Claim C4: beam-search inference performs at most
`round(2 * max(source sequence lengths))` decoding steps — the emitted trace
is capped by `maximum_iterations = _max_iters` — and it stops at the
end-of-sequence token: the only position at which `eos` can appear is the
last one, so decoding terminates for every input even if `eos` is never
emitted. -/
theorem beam_search_step_bound (next : List ℕ → ℕ) (eos : ℕ)
    (lens : List ℕ) :
    (inferPredictions next eos lens).length ≤ 2 * reduceMax lens
    ∧ (∀ i, (inferPredictions next eos lens).get? i = some eos →
        i = (inferPredictions next eos lens).length - 1) := by
  constructor
  · have h := dynamicDecode_length_le next eos (maxIters lens) []
    unfold inferPredictions
    unfold maxIters at h ⊢
    omega
  · intro i h
    exact dynamicDecode_stops_at_eos next eos (maxIters lens) [] i h

/-- Claim C5: when the KB embedding table is non-empty (`kb_size > 0` as the
constructor computes it) and its width differs from the decoder embedding
width, the constructor prefix — which runs before `super().__init__` and
before `_build_graph`, so before any computational graph exists — raises the
dimension-mismatch ValueError. -/
theorem kb_width_mismatch_fails_before_graph (kb dec : List (List ℚ))
    (h1 : 0 < kbSizeOf kb) (h2 : kbWidth kb ≠ decWidth dec) :
    constructValidate kb dec = Except.error PyErr.valueError := by
  unfold constructValidate
  rw [if_pos h1, if_pos h2]

/-- Witness for `kb_width_mismatch_fails_before_graph`: one KB entry of
width 2 against a decoder embedding of width 3. -/
theorem kb_width_mismatch_witness :
    0 < kbSizeOf [[(1 : ℚ), 2]] ∧
    kbWidth [[(1 : ℚ), 2]] ≠ decWidth [[(1 : ℚ), 2, 3]] ∧
    constructValidate [[(1 : ℚ), 2]] [[(1 : ℚ), 2, 3]] =
      Except.error PyErr.valueError :=
  ⟨by decide, by decide,
    kb_width_mismatch_fails_before_graph [[(1 : ℚ), 2]] [[(1 : ℚ), 2, 3]]
      (by decide) (by decide)⟩

/-- Claim C6 (code bug): an optimizer name absent from `tf.train` leaves
`self._optimizer = None`, and `issubclass(None, tf.train.Optimizer)` raises
TypeError — not the ConfigError the claim (and the code's own error message)
intends; the ConfigError is only reached for names resolving to a class that
is not an `Optimizer` subclass, while names resolving to an `Optimizer`
subclass pass the validation. -/
theorem optimizer_name_resolution_bug :
    resolveOptimizer tfTrainEnv ("NoSuchOptimizer") =
      Except.error PyErr.typeError ∧
    resolveOptimizer tfTrainEnv ("latest_checkpoint") =
      Except.error PyErr.typeError ∧
    resolveOptimizer tfTrainEnv ("Saver") = Except.error PyErr.configError ∧
    resolveOptimizer tfTrainEnv ("AdamOptimizer") =
      Except.ok (some TFTrainAttr.optimizerKind) :=
  ⟨rfl, rfl, rfl, rfl⟩

/-- Claim C7 (code bug): `load_params` raises ConfigError on a mismatch of a
non-exempt graph parameter and accepts identical configurations, but a
KB-embedding-checksum drift below `1e-3` — which the claim says must be
tolerated — instead raises AttributeError, because the tolerance guard calls
the nonexistent `math.abs`. -/
theorem load_params_tolerance_bug :
    |kbSumTol - 1| < 1 / 1000 ∧
    loadParams optEx paramsTolEx = Except.error PyErr.attributeError ∧
    loadParams optEx paramsHiddenEx = Except.error PyErr.configError ∧
    loadParams optEx optEx = Except.ok () := by
  refine ⟨?_, by decide, by decide, by decide⟩
  have h : kbSumTol = Rat.divInt 2001 2000 := Rat.mk'_eq_divInt
  rw [h, Rat.divInt_eq_div, abs_sub_lt_iff]
  norm_num

/-- Claim C8: an inference call with the probabilities flag set raises
NotImplementedError and returns no result; with the flag unset it returns
the decoded token ids and the predicted tags computed by the session. -/
theorem infer_prob_not_implemented
    (sess : InferFeed → List (List ℤ) × List (List ℤ)) (f : InferFeed) :
    callNetwork sess f true = Except.error PyErr.notImplementedError ∧
    callNetwork sess f false = Except.ok (sess f) :=
  ⟨rfl, rfl⟩

/-- Claim C9 (code bug): because `_init_params` stores the NER hidden-size
list inside a one-element tuple (trailing comma, line 144), the hidden loop
of `_build_ner_head` runs once with the whole list as the layer width — not
once per entry — and building the head raises TypeError (for a non-empty or
empty configured list alike; the final dense call additionally passes the
misspelled keyword `kernel_initalizer`). -/
theorem ner_head_layers_bug :
    buildNerHeadFromOpt [64, 32] 5 = Except.error PyErr.typeError ∧
    (nerHiddenSizeAttr [64, 32]).length = 1 ∧
    buildNerHeadFromOpt [] 5 = Except.error PyErr.typeError :=
  ⟨rfl, rfl, rfl⟩

theorem runTraining_decoder_fixed
    (steps : List ((List (List ℚ) → List (List ℚ)) × (List ℚ → List ℚ))) :
    ∀ (s : TFVars), (runTraining steps s).decoderEmbedding =
      s.decoderEmbedding := by
  induction steps with
  | nil => intro s; rfl
  | cons u us ih => intro s; exact ih (trainStep u.1 u.2 s)

/-- Claim C10: the decoder embedding table is created `trainable=False`, so
after any sequence of `train_on_batch` optimizer steps it still holds the
values it was created with, while the KB embedding is created
`trainable=True` and a step can change it. -/
theorem decoder_embedding_frozen :
    (∀ (steps : List ((List (List ℚ) → List (List ℚ)) × (List ℚ → List ℚ)))
       (decTable kbTable : List (List ℚ)) (embSize : ℕ),
      (runTraining steps
          (addPlaceholdersVars decTable kbTable embSize)).decoderEmbedding =
        decTable)
    ∧ (∃ (upd : List (List ℚ) → List (List ℚ)) (s : TFVars),
        (trainStep upd id s).kbEmbedding ≠ s.kbEmbedding) := by
  constructor
  · intro steps decTable kbTable embSize
    exact runTraining_decoder_fixed steps (addPlaceholdersVars decTable kbTable embSize)
  · refine ⟨fun _ => [[1]], addPlaceholdersVars [] [] 0, ?_⟩
    simp [trainStep, addPlaceholdersVars]

/-- Witness for `beam_search_step_bound`: a network that immediately emits
the end-of-sequence token 7 with maximum source length 3. -/
theorem beam_search_step_bound_witness :
    (inferPredictions (fun _ => 7) 7 [3]).get? 0 = some 7 ∧
    0 = (inferPredictions (fun _ => 7) 7 [3]).length - 1 :=
  ⟨by decide, (beam_search_step_bound (fun _ => 7) 7 [3]).2 0 (by decide)⟩
